import Mathlib

/-!
Verification development for the Raspberry Pi camera agent
(`src/raspberry/camera_agent.py`).

The agent's control logic is shallowly embedded here:

* the per-category data-usage telemetry buffer (`DATA_USAGE_BUFFER`,
  `_add_data_usage`, `_flush_data_usage_if_needed`);
* the photo capture / upload flow (`capture_photo_with_fswebcam`,
  `upload_photo`, `handle_photo_action`), with the capture lock and the
  HTTP requests reified as an event trace;
* the time-boxed streaming loop (`stream_for_duration`), with time
  advancing by one frame interval at each `time.sleep`;
* the PIR cooldown decision (`_pir_poll_loop`), with timestamps as
  rationals standing for the real-valued `time.time()` clock;
* the main poll loop's counter and the two modulo gates
  (`poll_and_execute_loop`, `_send_energy_sample_if_needed`,
  `_flush_data_usage_if_needed`).

Python integers are modelled as `Int` (as `Nat` where the source value
is a byte count or a duration that is manifestly non-negative), HTTP
and subprocess outcomes as explicit oracle parameters, and exceptions
as `Except` values or early returns, mirroring the `try/except`
structure of the source.
-/

namespace CameraAgent

/-- Categories of the `DATA_USAGE_BUFFER` dictionary: its four keys in
insertion order are `detection`, `photo`, `stream`, `system`. -/
inductive Category
  | detection
  | photo
  | stream
  | system
deriving DecidableEq, Repr

/-- State of the `DATA_USAGE_BUFFER` dictionary: one cumulative byte
count per category. -/
structure DataUsageBuffer where
  detection : Int
  photo : Int
  stream : Int
  system : Int
deriving DecidableEq, Repr

/-- Dictionary lookup `DATA_USAGE_BUFFER[event_type]`. -/
def DataUsageBuffer.get (b : DataUsageBuffer) : Category → Int
  | .detection => b.detection
  | .photo => b.photo
  | .stream => b.stream
  | .system => b.system

/-- Dictionary update `DATA_USAGE_BUFFER[event_type] = v`. -/
def DataUsageBuffer.set (b : DataUsageBuffer) : Category → Int → DataUsageBuffer
  | .detection, v => { b with detection := v }
  | .photo, v => { b with photo := v }
  | .stream, v => { b with stream := v }
  | .system, v => { b with system := v }

/-- Snapshot `list(DATA_USAGE_BUFFER.items())`, in the dictionary's
insertion order. -/
def DataUsageBuffer.items (b : DataUsageBuffer) : List (Category × Int) :=
  [(.detection, b.detection), (.photo, b.photo), (.stream, b.stream), (.system, b.system)]

/-- The four keys of `DATA_USAGE_BUFFER`, as the strings used by the
source. -/
def DATA_USAGE_BUFFER_KEYS : List String := ["detection", "photo", "stream", "system"]

/-- Buffer key named by an `event_type` string: the source replaces an
`event_type` that is not a key of `DATA_USAGE_BUFFER` by `"system"`
before indexing. -/
def resolveCategory (event_type : String) : Category :=
  if event_type = "detection" then .detection
  else if event_type = "photo" then .photo
  else if event_type = "stream" then .stream
  else .system

/-- Embedding of `_add_data_usage(event_type, bytes_count)`: a no-op
when telemetry is disabled or `bytes_count <= 0`; otherwise adds the
bytes to the (resolved) category's total. -/
def add_data_usage (DATA_USAGE_ENABLED : Bool) (buf : DataUsageBuffer)
    (event_type : String) (bytes_count : Int) : DataUsageBuffer :=
  if DATA_USAGE_ENABLED = false then buf
  else if bytes_count ≤ 0 then buf
  else
    let c := resolveCategory event_type
    buf.set c (buf.get c + bytes_count)

/-- One pass of the `for event_type, total_bytes in list(...)` loop body
of `_flush_data_usage_if_needed`: skip a non-positive total, otherwise
POST the aggregate report (outcome given by the `sendOk` oracle), reset
the category to zero exactly when the POST succeeded.  The second
component of the state collects the reports whose POST was attempted. -/
def flushStep (sendOk : Category → Int → Bool)
    (st : DataUsageBuffer × List (Category × Int)) (item : Category × Int) :
    DataUsageBuffer × List (Category × Int) :=
  if item.2 ≤ 0 then st
  else if sendOk item.1 item.2 then (st.1.set item.1 0, st.2 ++ [item])
  else (st.1, st.2 ++ [item])

/-- The category loop of `_flush_data_usage_if_needed`, folded over the
snapshot of the buffer's items. -/
def flushCategories (sendOk : Category → Int → Bool) (buf : DataUsageBuffer) :
    DataUsageBuffer × List (Category × Int) :=
  buf.items.foldl (flushStep sendOk) (buf, [])

/-- Embedding of `_flush_data_usage_if_needed(poll_count)`: early return
(no POST, buffer unchanged) when telemetry is disabled, the flush period
is non-positive, or `poll_count` is not a multiple of the period;
otherwise run the category loop. -/
def flush_data_usage_if_needed (DATA_USAGE_ENABLED : Bool)
    (DATA_USAGE_FLUSH_EVERY_POLLS : Int) (poll_count : Int)
    (sendOk : Category → Int → Bool) (buf : DataUsageBuffer) :
    DataUsageBuffer × List (Category × Int) :=
  if DATA_USAGE_ENABLED = false then (buf, [])
  else if DATA_USAGE_FLUSH_EVERY_POLLS ≤ 0 then (buf, [])
  else if poll_count % DATA_USAGE_FLUSH_EVERY_POLLS ≠ 0 then (buf, [])
  else flushCategories sendOk buf

/-- All four bucket totals are non-negative. -/
def DataUsageBuffer.Nonneg (b : DataUsageBuffer) : Prop :=
  0 ≤ b.detection ∧ 0 ≤ b.photo ∧ 0 ≤ b.stream ∧ 0 ≤ b.system

/-- Observable events of the agent, in program order: capture-lock
acquisition and release, the `fswebcam` subprocess run, the HTTP
requests, and the log lines the claims talk about. -/
inductive Ev
  | lockAcquire
  | runFswebcam
  | lockRelease
  | controlGet
  | photoPost
  | framePost (bytes : Nat)
  | captureFailLog
  | frameEmptyLog
  | frameSentLog (bytes : Nat)
  | uploadErrorLog
  | remainingLog
  | streamFinishedLog
deriving DecidableEq, Repr

/-- Outcome of one `fswebcam` invocation, as `capture_photo_with_fswebcam`
observes it: the subprocess return code, whether `PHOTO_FILE_PATH` exists
afterwards, and the byte size of its content when it does. -/
structure CaptureEnv where
  returncode : Int
  fileExists : Bool
  fileSize : Nat
deriving DecidableEq, Repr

/-- Hardware-capture failures raised by `capture_photo_with_fswebcam`:
`RuntimeError("fswebcam failed")` on a non-zero exit status, and
`FileNotFoundError` when `PHOTO_FILE_PATH` is missing afterwards. -/
inductive CaptureError
  | fswebcamFailed
  | fileNotFound
deriving DecidableEq, Repr

/-- Embedding of `capture_photo_with_fswebcam()`.  Under the capture
lock it runs `fswebcam`, raises on a non-zero return code, raises when
the output file is missing, and otherwise returns the path.  The `with
CAPTURE_LOCK` block releases the lock on every path, also when an
exception propagates, so all three paths share the same event trace. -/
def capture_photo_with_fswebcam (env : CaptureEnv) :
    Except CaptureError Unit × List Ev :=
  let evs : List Ev := [.lockAcquire, .runFswebcam, .lockRelease]
  if env.returncode ≠ 0 then (.error .fswebcamFailed, evs)
  else if env.fileExists = false then (.error .fileNotFound, evs)
  else (.ok (), evs)

/-- Embedding of `upload_photo(file_path)`: one POST of the image to the
photo endpoint; when the whole request block succeeds (outcome given by
`uploadOk`), `(file size + response-body size)` bytes are recorded into
the `"photo"` bucket; a failure anywhere in the block is caught and only
logged. -/
def upload_photo (DATA_USAGE_ENABLED : Bool) (file_size : Nat)
    (uploadOk : Bool) (resp_bytes : Nat) (buf : DataUsageBuffer) :
    DataUsageBuffer × List Ev :=
  if uploadOk then
    (add_data_usage DATA_USAGE_ENABLED buf "photo" ((file_size : Int) + resp_bytes),
     [.photoPost])
  else (buf, [.photoPost])

/-- Embedding of `handle_photo_action()`: capture, then upload; an
exception from the capture step is caught by the surrounding
`try/except` (only logged, never re-raised), and the upload is never
reached on that path. -/
def handle_photo_action (DATA_USAGE_ENABLED : Bool) (env : CaptureEnv)
    (uploadOk : Bool) (resp_bytes : Nat) (buf : DataUsageBuffer) :
    DataUsageBuffer × List Ev :=
  match capture_photo_with_fswebcam env with
  | (.error _, evs) => (buf, evs)
  | (.ok _, evs) =>
      let r := upload_photo DATA_USAGE_ENABLED env.fileSize uploadOk resp_bytes buf
      (r.1, evs ++ r.2)

/-- Environment of one iteration of the `stream_for_duration` loop: the
outcome of that iteration's `fswebcam` capture (whose `fileSize` is the
length of the bytes read back from the file) and of its live-frame POST
when one is attempted. -/
structure StreamStep where
  env : CaptureEnv
  uploadOk : Bool
  respBytes : Nat
deriving Repr

/-- Result of a stream session: the clock value when the loop exits, the
number of loop iterations executed, the final data-usage buffer, and the
event trace. -/
structure StreamResult where
  exitTime : Nat
  cycles : Nat
  buf : DataUsageBuffer
  events : List Ev
deriving Repr

/-- The `while datetime.now() < end_time` loop of `stream_for_duration`,
with `D = duration_seconds` as deadline and the clock `t` advancing by
one frame interval `I` at each `time.sleep(FRAME_INTERVAL_SECONDS)`
(capture and upload are modelled as instantaneous).  Per iteration,
following the source: a capture exception is logged and the loop
continues after the sleep; an empty frame skips the POST; a successful
POST records `(frame + response)` bytes into the `"stream"` bucket; an
exception in the upload block logs and breaks out of the loop.  The
`fuel` argument only makes the recursion structural: the loop is
re-entered at most `D` times when `0 < I`, so any `fuel ≥ D` never
reaches the exhaustion branch. -/
def stream_loop (I D : Nat) (steps : Nat → StreamStep) (DATA_USAGE_ENABLED : Bool) :
    Nat → Nat → Nat → DataUsageBuffer → StreamResult
  | 0, t, _, buf => ⟨t, 0, buf, []⟩
  | fuel + 1, t, k, buf =>
    if t < D then
      let s := steps k
      let cap := capture_photo_with_fswebcam s.env
      match cap.1 with
      | .error _ =>
          let r := stream_loop I D steps DATA_USAGE_ENABLED fuel (t + I) (k + 1) buf
          ⟨r.exitTime, r.cycles + 1, r.buf, cap.2 ++ [.captureFailLog] ++ r.events⟩
      | .ok _ =>
          if s.env.fileSize = 0 then
            let r := stream_loop I D steps DATA_USAGE_ENABLED fuel (t + I) (k + 1) buf
            ⟨r.exitTime, r.cycles + 1, r.buf,
             cap.2 ++ [.frameEmptyLog, .remainingLog] ++ r.events⟩
          else if s.uploadOk then
            let buf' := add_data_usage DATA_USAGE_ENABLED buf "stream"
              ((s.env.fileSize : Int) + s.respBytes)
            let r := stream_loop I D steps DATA_USAGE_ENABLED fuel (t + I) (k + 1) buf'
            ⟨r.exitTime, r.cycles + 1, r.buf,
             cap.2 ++ [.framePost s.env.fileSize, .frameSentLog s.env.fileSize,
                       .remainingLog] ++ r.events⟩
          else
            ⟨t, 1, buf, cap.2 ++ [.framePost s.env.fileSize, .uploadErrorLog]⟩
    else ⟨t, 0, buf, []⟩

/-- Embedding of `stream_for_duration(duration_seconds)`: run the loop
from clock `0` with enough fuel, then emit the terminal
`"Streaming finalizado"` log from the `finally` block. -/
def stream_for_duration (I duration_seconds : Nat) (steps : Nat → StreamStep)
    (DATA_USAGE_ENABLED : Bool) (buf : DataUsageBuffer) : StreamResult :=
  let r := stream_loop I duration_seconds steps DATA_USAGE_ENABLED
    (duration_seconds + 1) 0 0 buf
  ⟨r.exitTime, r.cycles, r.buf, r.events ++ [.streamFinishedLog]⟩

/-- Actions an accepted PIR trigger performs inside `_pir_poll_loop`, in
program order: the assignment `last_shot = now_ts` and the
`thread.start()` that launches the detached detection flow. -/
inductive PirAction
  | setLastShot (t : ℚ)
  | launchFlow
deriving DecidableEq, Repr

/-- Trigger decision of one `_pir_poll_loop` iteration: with sensor
value `high` (`value == GPIO.HIGH`) read at time `now_ts`, fire iff the
pin is high and `now_ts - last_shot >= cooldown_seconds`; an accepted
trigger records `now_ts` as the new `last_shot`.  Returns the updated
`last_shot` and whether a detection flow was launched.  Timestamps and
the cooldown are rationals standing for the source's float seconds. -/
def pir_step (cooldown_seconds last_shot now_ts : ℚ) (high : Bool) : ℚ × Bool :=
  if high = true ∧ now_ts - last_shot ≥ cooldown_seconds then (now_ts, true)
  else (last_shot, false)

/-- Ordered actions of one `_pir_poll_loop` iteration: on an accepted
trigger the source assigns `last_shot = now_ts` and then starts the
detection thread; otherwise it does nothing. -/
def pir_step_actions (cooldown_seconds last_shot now_ts : ℚ) (high : Bool) :
    List PirAction :=
  if high = true ∧ now_ts - last_shot ≥ cooldown_seconds then
    [.setLastShot now_ts, .launchFlow]
  else []

/-- A run of `_pir_poll_loop` over a finite list of sensor observations
`(now_ts, high)`: threads `last_shot` through `pir_step` and counts the
detection flows launched. -/
def pir_run (cooldown_seconds : ℚ) : ℚ × Nat → List (ℚ × Bool) → ℚ × Nat
  | st, [] => st
  | (last_shot, fired), (now_ts, high) :: rest =>
      let r := pir_step cooldown_seconds last_shot now_ts high
      pir_run cooldown_seconds (r.1, if r.2 then fired + 1 else fired) rest

/-- Periodicity gate of `_send_energy_sample_if_needed(poll_count)`: the
function returns early (sending nothing) when the period is non-positive
or `poll_count` is not a multiple of it; only past this gate does it go
on to read the CPU temperature and attempt the POST. -/
def energy_sample_gate (ENERGY_SAMPLE_EVERY_POLLS poll_count : Int) : Bool :=
  if ENERGY_SAMPLE_EVERY_POLLS ≤ 0 then false
  else if poll_count % ENERGY_SAMPLE_EVERY_POLLS ≠ 0 then false
  else true

/-- Periodicity gate of `_flush_data_usage_if_needed(poll_count)`: the
flush body runs only when telemetry is enabled, the period is positive
and `poll_count` is a multiple of it (the three early returns of the
source in order). -/
def flush_gate (DATA_USAGE_ENABLED : Bool)
    (DATA_USAGE_FLUSH_EVERY_POLLS poll_count : Int) : Bool :=
  if DATA_USAGE_ENABLED = false then false
  else if DATA_USAGE_FLUSH_EVERY_POLLS ≤ 0 then false
  else if poll_count % DATA_USAGE_FLUSH_EVERY_POLLS ≠ 0 then false
  else true

/-- One iteration of `poll_and_execute_loop` as it affects the poll
counter and the two telemetry gates: `poll_count += 1` is the first
statement of the iteration, and both gates are then evaluated with the
incremented counter (outside the `try` block, so they run even when the
control request failed).  Returns the new counter together with the
counter value the gates saw and the two gate decisions. -/
def poll_loop_step (ENERGY_SAMPLE_EVERY_POLLS : Int) (DATA_USAGE_ENABLED : Bool)
    (DATA_USAGE_FLUSH_EVERY_POLLS : Int) (poll_count : Nat) :
    Nat × (Nat × Bool × Bool) :=
  let c := poll_count + 1
  (c, (c, energy_sample_gate ENERGY_SAMPLE_EVERY_POLLS c,
       flush_gate DATA_USAGE_ENABLED DATA_USAGE_FLUSH_EVERY_POLLS c))

/-- Counter and gate trace of the first `n` iterations of
`poll_and_execute_loop`, starting from `poll_count = 0`. -/
def poll_loop_trace (ENERGY_SAMPLE_EVERY_POLLS : Int) (DATA_USAGE_ENABLED : Bool)
    (DATA_USAGE_FLUSH_EVERY_POLLS : Int) : Nat → Nat × List (Nat × Bool × Bool)
  | 0 => (0, [])
  | n + 1 =>
      let p := poll_loop_trace ENERGY_SAMPLE_EVERY_POLLS DATA_USAGE_ENABLED
        DATA_USAGE_FLUSH_EVERY_POLLS n
      let s := poll_loop_step ENERGY_SAMPLE_EVERY_POLLS DATA_USAGE_ENABLED
        DATA_USAGE_FLUSH_EVERY_POLLS p.1
      (s.1, p.2 ++ [s.2])

/-- Value of `poll_count` after `n` iterations of the main loop. -/
def poll_counter_after (ENERGY_SAMPLE_EVERY_POLLS : Int) (DATA_USAGE_ENABLED : Bool)
    (DATA_USAGE_FLUSH_EVERY_POLLS : Int) (n : Nat) : Nat :=
  (poll_loop_trace ENERGY_SAMPLE_EVERY_POLLS DATA_USAGE_ENABLED
    DATA_USAGE_FLUSH_EVERY_POLLS n).1

/-- Body of the control response, as `poll_and_execute_loop` reads it:
`action = data.get("action", "none")` and
`stream_duration = int(data.get("streamDurationSeconds", 0) or 0)`. -/
structure ControlResponse where
  action : String
  streamDurationSeconds : Int
deriving DecidableEq, Repr

/-- Dispatch decision of `poll_and_execute_loop` on a parsed control
response: `"photo"` runs the photo flow, `"stream"` with a positive
duration runs the streaming loop, anything else falls to the
`"Nada que hacer"` branch. -/
inductive Dispatch
  | photo
  | stream (duration : Int)
  | noop
deriving DecidableEq, Repr

/-- The `if action == "photo" / elif action == "stream" and
stream_duration > 0 / else` chain of `poll_and_execute_loop`. -/
def dispatch_of (resp : ControlResponse) : Dispatch :=
  if resp.action = "photo" then .photo
  else if resp.action = "stream" ∧ resp.streamDurationSeconds > 0 then
    .stream resp.streamDurationSeconds
  else .noop

/-- Environment of one successful poll-loop iteration: the parsed
control response, the byte length of the control response body, and the
outcomes feeding the photo flow or the stream session it may launch. -/
structure PollEnv where
  resp : ControlResponse
  ctrlBytes : Nat
  captureEnv : CaptureEnv
  uploadOk : Bool
  respBytes : Nat
  frameInterval : Nat
  streamSteps : Nat → StreamStep

/-- Body of one `poll_and_execute_loop` iteration after a successful
control GET: record the control response body into the `"system"`
bucket, then dispatch on the action.  Returns the updated buffer and the
event trace of the iteration. -/
def poll_iteration_body (DATA_USAGE_ENABLED : Bool) (w : PollEnv)
    (buf : DataUsageBuffer) : DataUsageBuffer × List Ev :=
  let buf1 := add_data_usage DATA_USAGE_ENABLED buf "system" (w.ctrlBytes : Int)
  match dispatch_of w.resp with
  | .photo =>
      let r := handle_photo_action DATA_USAGE_ENABLED w.captureEnv w.uploadOk
        w.respBytes buf1
      (r.1, .controlGet :: r.2)
  | .stream d =>
      let r := stream_for_duration w.frameInterval d.toNat w.streamSteps
        DATA_USAGE_ENABLED buf1
      (r.buf, .controlGet :: r.events)
  | .noop => (buf1, [.controlGet])

/-- One full `poll_and_execute_loop` iteration with a successful control
GET: increment `poll_count`, then run the body.  Returns the new counter
with the body's result. -/
def poll_iteration (DATA_USAGE_ENABLED : Bool) (w : PollEnv) (poll_count : Nat)
    (buf : DataUsageBuffer) : Nat × DataUsageBuffer × List Ev :=
  (poll_count + 1, poll_iteration_body DATA_USAGE_ENABLED w buf)

/-! Helper lemmas shared by several claim proofs. -/

/-- Reading a bucket after writing one: only the written category
changes. -/
theorem DataUsageBuffer.get_set (b : DataUsageBuffer) (c c' : Category) (v : Int) :
    (b.set c' v).get c = if c' = c then v else b.get c := by
  cases c <;> cases c' <;> simp [DataUsageBuffer.set, DataUsageBuffer.get]

/-- Characterization of `_add_data_usage` on each bucket: the resolved
category gains `bytes_count` when telemetry is enabled and the count is
positive; every other bucket (and every bucket in the no-op cases) is
unchanged. -/
theorem add_data_usage_get (enabled : Bool) (buf : DataUsageBuffer) (et : String)
    (n : Int) (c : Category) :
    (add_data_usage enabled buf et n).get c =
      if enabled = true ∧ 0 < n ∧ resolveCategory et = c then buf.get c + n
      else buf.get c := by
  unfold add_data_usage
  cases enabled with
  | false => simp
  | true =>
      by_cases hn : n ≤ 0
      · rw [if_neg (by simp), if_pos hn, if_neg (by omega)]
      · rw [if_neg (by simp), if_neg hn]
        have hpos : 0 < n := by omega
        by_cases hc : resolveCategory et = c
        · simp [hc, DataUsageBuffer.get_set, hpos]
        · simp [DataUsageBuffer.get_set, hc]

/-- An `event_type` that is not a key of `DATA_USAGE_BUFFER` resolves to
the `"system"` category. -/
theorem resolveCategory_of_not_key (et : String) (h : et ∉ DATA_USAGE_BUFFER_KEYS) :
    resolveCategory et = Category.system := by
  simp [DATA_USAGE_BUFFER_KEYS] at h
  obtain ⟨h1, h2, h3, _⟩ := h
  simp [resolveCategory, h1, h2, h3]

/-- Effect of one `flushStep` on one bucket: the step's own category is
zeroed exactly when its total is positive and its POST succeeds; no
other bucket is touched. -/
theorem flushStep_fst_get (sendOk : Category → Int → Bool)
    (st : DataUsageBuffer × List (Category × Int)) (item : Category × Int)
    (c : Category) :
    (flushStep sendOk st item).1.get c =
      if 0 < item.2 ∧ sendOk item.1 item.2 = true ∧ item.1 = c then 0
      else st.1.get c := by
  unfold flushStep
  by_cases h1 : item.2 ≤ 0
  · rw [if_pos h1, if_neg (fun h => absurd h.1 (by omega))]
  · rw [if_neg h1]
    by_cases h2 : sendOk item.1 item.2 = true
    · rw [if_pos h2]
      show (st.1.set item.1 0).get c = _
      rw [DataUsageBuffer.get_set]
      by_cases hc : item.1 = c
      · rw [if_pos hc, if_pos ⟨by omega, h2, hc⟩]
      · rw [if_neg hc, if_neg (fun h => hc h.2.2)]
    · rw [if_neg h2]
      show st.1.get c = _
      rw [if_neg (fun h => h2 h.2.1)]

/-- Effect of one `flushStep` on the attempted-report list: the item is
appended exactly when its total is positive, whatever the POST outcome. -/
theorem flushStep_snd (sendOk : Category → Int → Bool)
    (st : DataUsageBuffer × List (Category × Int)) (item : Category × Int) :
    (flushStep sendOk st item).2 =
      st.2 ++ (if 0 < item.2 then [item] else []) := by
  unfold flushStep
  split_ifs <;> (simp_all; try omega)

/-- Per-bucket characterization of the flush loop: a category with a
positive snapshot total whose POST succeeds is reset to `0`; every other
category keeps its value. -/
theorem flushCategories_get (sendOk : Category → Int → Bool) (buf : DataUsageBuffer)
    (c : Category) :
    (flushCategories sendOk buf).1.get c =
      if 0 < buf.get c ∧ sendOk c (buf.get c) = true then 0 else buf.get c := by
  simp only [flushCategories, DataUsageBuffer.items, List.foldl, flushStep_fst_get]
  cases c <;> simp [DataUsageBuffer.get]

/-- The reports whose POST the flush loop attempts are exactly the items
with a positive snapshot total, in buffer order, regardless of which
sends succeed. -/
theorem flushCategories_reports (sendOk : Category → Int → Bool) (buf : DataUsageBuffer) :
    (flushCategories sendOk buf).2 =
      buf.items.filter (fun it => decide (0 < it.2)) := by
  simp only [flushCategories, DataUsageBuffer.items, List.foldl, flushStep_snd]
  by_cases h1 : 0 < buf.detection <;> by_cases h2 : 0 < buf.photo <;>
    by_cases h3 : 0 < buf.stream <;> by_cases h4 : 0 < buf.system <;>
    simp [h1, h2, h3, h4, List.filter]

/-! Claim theorems. -/

/-- C10: recording a byte count `≤ 0` leaves every bucket unchanged; an
`event_type` outside the four buffer keys is accounted under `"system"`
rather than rejected; with data-usage telemetry disabled, both
`_add_data_usage` and `_flush_data_usage_if_needed` leave all state
unchanged and send nothing. -/
theorem C10_add_data_usage_edge_cases (enabled : Bool) (buf : DataUsageBuffer)
    (event_type : String) (bytes_count : Int) (F poll_count : Int)
    (sendOk : Category → Int → Bool) :
    (bytes_count ≤ 0 → add_data_usage enabled buf event_type bytes_count = buf) ∧
    (event_type ∉ DATA_USAGE_BUFFER_KEYS →
      add_data_usage enabled buf event_type bytes_count =
        add_data_usage enabled buf "system" bytes_count) ∧
    (add_data_usage false buf event_type bytes_count = buf ∧
      flush_data_usage_if_needed false F poll_count sendOk buf = (buf, [])) := by
  refine ⟨?_, ?_, ?_, ?_⟩
  · intro h
    unfold add_data_usage
    cases enabled <;> simp [h]
  · intro h
    unfold add_data_usage
    rw [resolveCategory_of_not_key event_type h]
    have : resolveCategory "system" = Category.system := by decide
    rw [this]
  · unfold add_data_usage
    simp
  · unfold flush_data_usage_if_needed
    simp

/-- C10 witness: the theorem instantiated at a concrete buffer, the
unknown category `"foo"`, a negative byte count, and telemetry
disabled. -/
theorem C10_add_data_usage_edge_cases_witness :
    add_data_usage true ⟨1, 2, 3, 4⟩ "foo" (-5) = ⟨1, 2, 3, 4⟩ ∧
    add_data_usage true ⟨1, 2, 3, 4⟩ "foo" (-5) =
      add_data_usage true ⟨1, 2, 3, 4⟩ "system" (-5) ∧
    add_data_usage false ⟨1, 2, 3, 4⟩ "foo" (-5) = ⟨1, 2, 3, 4⟩ ∧
    flush_data_usage_if_needed false 4 4 (fun _ _ => true) ⟨1, 2, 3, 4⟩ =
      (⟨1, 2, 3, 4⟩, []) := by
  have h := C10_add_data_usage_edge_cases true ⟨1, 2, 3, 4⟩ "foo" (-5) 4 4
    (fun _ _ => true)
  have h' := C10_add_data_usage_edge_cases false ⟨1, 2, 3, 4⟩ "foo" (-5) 4 4
    (fun _ _ => true)
  exact ⟨h.1 (by decide), h.2.1 (by decide), h'.1 (by decide), h.2.2.2⟩

/-- C1 counterexample: with exit status `0`, an existing output file of
size `0` (an empty file), `capture_photo_with_fswebcam` succeeds instead
of failing, and `handle_photo_action` goes on to POST the empty image to
the photo endpoint — contradicting the claim that an empty output file
fails with a `HardwareCaptureError` and is never uploaded.  The source
checks only the exit status and the file's existence, never its size. -/
theorem C1_empty_file_is_uploaded :
    (capture_photo_with_fswebcam ⟨0, true, 0⟩).1 = Except.ok () ∧
    Ev.photoPost ∈ (handle_photo_action true ⟨0, true, 0⟩ true 3 ⟨0, 0, 0, 0⟩).2 :=
  ⟨rfl, by simp [handle_photo_action, capture_photo_with_fswebcam, upload_photo]⟩

/-- C1 (amended): if the capture command exits non-zero or its output
file is missing, `capture_photo_with_fswebcam` fails with a
hardware-capture error, the capture lock is released, no upload of the
image is attempted (the photo bucket is left unchanged), and
`handle_photo_action` catches the error instead of propagating it; an
existing-but-empty output file, however, is not detected and is
uploaded. -/
theorem C1_capture_failure_releases_lock_no_upload (enabled : Bool)
    (env : CaptureEnv) (uploadOk : Bool) (resp_bytes : Nat)
    (buf : DataUsageBuffer)
    (h : env.returncode ≠ 0 ∨ env.fileExists = false) :
    (∃ e, (capture_photo_with_fswebcam env).1 = Except.error e) ∧
    handle_photo_action enabled env uploadOk resp_bytes buf =
      (buf, [.lockAcquire, .runFswebcam, .lockRelease]) := by
  by_cases hr : env.returncode = 0
  · have hf : env.fileExists = false := by
      rcases h with h | h
      · exact absurd hr h
      · exact h
    refine ⟨⟨.fileNotFound, ?_⟩, ?_⟩
    · simp [capture_photo_with_fswebcam, hr, hf]
    · simp [handle_photo_action, capture_photo_with_fswebcam, hr, hf]
  · refine ⟨⟨.fswebcamFailed, ?_⟩, ?_⟩
    · simp [capture_photo_with_fswebcam, hr]
    · simp [handle_photo_action, capture_photo_with_fswebcam, hr]

/-- C1 witness: the amended theorem instantiated at a concrete failing
capture (exit status `1`). -/
theorem C1_capture_failure_releases_lock_no_upload_witness :
    ((1 : Int) ≠ 0 ∨ (true = false)) ∧
    (∃ e, (capture_photo_with_fswebcam ⟨1, true, 10⟩).1 = Except.error e) ∧
    handle_photo_action true ⟨1, true, 10⟩ true 5 ⟨0, 0, 0, 0⟩ =
      (⟨0, 0, 0, 0⟩, [.lockAcquire, .runFswebcam, .lockRelease]) :=
  ⟨Or.inl (by decide),
   C1_capture_failure_releases_lock_no_upload true ⟨1, true, 10⟩ true 5 ⟨0, 0, 0, 0⟩
     (Or.inl (by decide))⟩

/-- C4: with the first activation accepted (pin high at `t1`, cooldown
elapsed since `last0`), a second activation strictly within the cooldown
window launches no further flow and leaves `last_shot` at `t1` (one flow
in total), while a second activation spaced more than `cooldown` seconds
later launches its own flow (two in total); an accepted trigger performs
the `last_shot` update before starting the detection thread. -/
theorem C4_pir_cooldown_suppression (cooldown last0 t1 t2 : ℚ)
    (h1 : t1 - last0 ≥ cooldown) :
    (t2 - t1 < cooldown →
      pir_run cooldown (last0, 0) [(t1, true), (t2, true)] = (t1, 1)) ∧
    (t2 - t1 > cooldown →
      pir_run cooldown (last0, 0) [(t1, true), (t2, true)] = (t2, 2)) ∧
    pir_step_actions cooldown last0 t1 true = [.setLastShot t1, .launchFlow] := by
  have hstep1 : pir_step cooldown last0 t1 true = (t1, true) := by
    unfold pir_step
    rw [if_pos ⟨rfl, h1⟩]
  refine ⟨?_, ?_, ?_⟩
  · intro h2
    have hstep2 : pir_step cooldown t1 t2 true = (t1, false) := by
      unfold pir_step
      rw [if_neg (fun hc => absurd hc.2 (by linarith))]
    simp [pir_run, hstep1, hstep2]
  · intro h2
    have hstep2 : pir_step cooldown t1 t2 true = (t2, true) := by
      unfold pir_step
      rw [if_pos ⟨rfl, by linarith⟩]
    simp [pir_run, hstep1, hstep2]
  · unfold pir_step_actions
    rw [if_pos ⟨rfl, h1⟩]

/-- Buckets of a non-negative buffer are non-negative, category-wise. -/
theorem DataUsageBuffer.Nonneg_get {b : DataUsageBuffer} (h : b.Nonneg)
    (c : Category) : 0 ≤ b.get c := by
  obtain ⟨h1, h2, h3, h4⟩ := h
  cases c
  exacts [h1, h2, h3, h4]

/-- C2: on every flush, exactly the categories with a nonzero total are
sent as one aggregate report each (in buffer order, with their totals);
a category whose send succeeds is reset to zero; a category whose send
fails keeps its total unchanged; bucket values stay non-negative across
both the flush and `_add_data_usage`. -/
theorem C2_flush_accumulate_on_failure (sendOk : Category → Int → Bool)
    (buf : DataUsageBuffer) (hnn : buf.Nonneg) :
    ((flushCategories sendOk buf).2 =
      buf.items.filter (fun it => decide (it.2 ≠ 0))) ∧
    (∀ c, buf.get c ≠ 0 → sendOk c (buf.get c) = true →
      (flushCategories sendOk buf).1.get c = 0) ∧
    (∀ c, buf.get c ≠ 0 → sendOk c (buf.get c) = false →
      (flushCategories sendOk buf).1.get c = buf.get c) ∧
    (flushCategories sendOk buf).1.Nonneg ∧
    (∀ (enabled : Bool) (et : String) (n : Int) (b : DataUsageBuffer),
      b.Nonneg → (add_data_usage enabled b et n).Nonneg) := by
  obtain ⟨hd, hp, hs, hy⟩ := hnn
  have hnn' : buf.Nonneg := ⟨hd, hp, hs, hy⟩
  refine ⟨?_, ?_, ?_, ?_, ?_⟩
  · rw [flushCategories_reports]
    refine List.filter_congr ?_
    intro it hit
    refine decide_eq_decide.mpr ?_
    simp only [DataUsageBuffer.items, List.mem_cons, List.not_mem_nil, or_false] at hit
    rcases hit with h | h | h | h <;> rw [h] <;> simp <;> omega
  · intro c h hsend
    have h0 : 0 < buf.get c := by
      have := DataUsageBuffer.Nonneg_get hnn' c
      omega
    rw [flushCategories_get, if_pos ⟨h0, hsend⟩]
  · intro c h hsend
    rw [flushCategories_get, if_neg (fun hc => by rw [hsend] at hc; exact absurd hc.2 (by simp))]
  · have key : ∀ c, 0 ≤ (flushCategories sendOk buf).1.get c := by
      intro c
      rw [flushCategories_get]
      split_ifs
      · exact le_refl 0
      · exact DataUsageBuffer.Nonneg_get hnn' c
    exact ⟨key .detection, key .photo, key .stream, key .system⟩
  · intro enabled et n b hb
    have key : ∀ c, 0 ≤ (add_data_usage enabled b et n).get c := by
      intro c
      rw [add_data_usage_get]
      split_ifs with h
      · have hn := h.2.1
        have hg := DataUsageBuffer.Nonneg_get hb c
        omega
      · exact DataUsageBuffer.Nonneg_get hb c
    exact ⟨key .detection, key .photo, key .stream, key .system⟩

/-- C2 witness: buffer `(0, 5, 0, 7)` with a send oracle that succeeds
only for the photo category: the photo bucket is reset, the system
bucket retains its 7 bytes for the next flush. -/
theorem C2_flush_accumulate_on_failure_witness :
    DataUsageBuffer.Nonneg ⟨0, 5, 0, 7⟩ ∧
    (flushCategories (fun c _ => decide (c = Category.photo)) ⟨0, 5, 0, 7⟩).1.get .photo = 0 ∧
    (flushCategories (fun c _ => decide (c = Category.photo)) ⟨0, 5, 0, 7⟩).1.get .system = 7 := by
  have h := C2_flush_accumulate_on_failure (fun c _ => decide (c = Category.photo))
    ⟨0, 5, 0, 7⟩ ⟨by decide, by decide, by decide, by decide⟩
  refine ⟨⟨by decide, by decide, by decide, by decide⟩,
    h.2.1 .photo (by decide) (by decide), ?_⟩
  exact h.2.2.1 .system (by decide) (by decide)

/-- C9: the list of reports the flush attempts does not depend on the
send outcomes at all — a failed send for one category never prevents the
remaining categories from being attempted in the same pass — and each
category's final value depends only on its own send outcome. -/
theorem C9_flush_per_category_isolation (sendOk sendOk' : Category → Int → Bool)
    (buf : DataUsageBuffer) :
    (flushCategories sendOk buf).2 = (flushCategories sendOk' buf).2 ∧
    (∀ c, sendOk c (buf.get c) = sendOk' c (buf.get c) →
      (flushCategories sendOk buf).1.get c = (flushCategories sendOk' buf).1.get c) := by
  constructor
  · rw [flushCategories_reports, flushCategories_reports]
  · intro c h
    rw [flushCategories_get, flushCategories_get, h]

/-- C9 witness: an oracle failing every send except photo, against an
oracle failing everything: same attempted reports, and the stream
category (where both agree) ends identically. -/
theorem C9_flush_per_category_isolation_witness :
    (flushCategories (fun c _ => decide (c = Category.photo)) ⟨1, 2, 3, 4⟩).2 =
      (flushCategories (fun _ _ => false) ⟨1, 2, 3, 4⟩).2 ∧
    (flushCategories (fun c _ => decide (c = Category.photo)) ⟨1, 2, 3, 4⟩).1.get .stream =
      (flushCategories (fun _ _ => false) ⟨1, 2, 3, 4⟩).1.get .stream := by
  have h := C9_flush_per_category_isolation (fun c _ => decide (c = Category.photo))
    (fun _ _ => false) ⟨1, 2, 3, 4⟩
  exact ⟨h.1, h.2 .stream (by decide)⟩

/-- C7: every poll iteration increments the counter by one; an action of
`"photo"` invokes the photo capture-and-upload flow, `"stream"` with a
positive duration invokes the stream session with that duration, and any
other response (including `"none"`, or `"stream"` with a non-positive
duration) produces only the control GET — no capture and no upload. -/
theorem C7_action_dispatch (DATA_USAGE_ENABLED : Bool) (w : PollEnv)
    (poll_count : Nat) (buf : DataUsageBuffer) :
    (poll_iteration DATA_USAGE_ENABLED w poll_count buf).1 = poll_count + 1 ∧
    (w.resp.action = "photo" →
      poll_iteration_body DATA_USAGE_ENABLED w buf =
        (let r := handle_photo_action DATA_USAGE_ENABLED w.captureEnv w.uploadOk
           w.respBytes
           (add_data_usage DATA_USAGE_ENABLED buf "system" (w.ctrlBytes : Int))
         (r.1, .controlGet :: r.2))) ∧
    (w.resp.action = "stream" → w.resp.streamDurationSeconds > 0 →
      poll_iteration_body DATA_USAGE_ENABLED w buf =
        (let r := stream_for_duration w.frameInterval
           w.resp.streamDurationSeconds.toNat w.streamSteps DATA_USAGE_ENABLED
           (add_data_usage DATA_USAGE_ENABLED buf "system" (w.ctrlBytes : Int))
         (r.buf, .controlGet :: r.events))) ∧
    (w.resp.action ≠ "photo" →
      ¬(w.resp.action = "stream" ∧ w.resp.streamDurationSeconds > 0) →
      poll_iteration_body DATA_USAGE_ENABLED w buf =
        (add_data_usage DATA_USAGE_ENABLED buf "system" (w.ctrlBytes : Int),
         [.controlGet])) := by
  refine ⟨rfl, ?_, ?_, ?_⟩
  · intro h
    have hd : dispatch_of w.resp = .photo := by simp [dispatch_of, h]
    simp [poll_iteration_body, hd]
  · intro h1 h2
    have hnp : ¬(w.resp.action = "photo") := by
      rw [h1]
      decide
    have hd : dispatch_of w.resp = .stream w.resp.streamDurationSeconds := by
      simp [dispatch_of, hnp, h1, h2]
    simp [poll_iteration_body, hd]
  · intro h1 h2
    have hd : dispatch_of w.resp = .noop := by
      simp only [dispatch_of, if_neg h1, if_neg h2]
    simp [poll_iteration_body, hd]

/-- Concrete poll environment with a `"none"` control response, used by
the C7 witness. -/
def pollEnvNone : PollEnv :=
  ⟨⟨"none", 0⟩, 7, ⟨0, true, 100⟩, true, 20, 2, fun _ => ⟨⟨0, true, 1⟩, true, 0⟩⟩

/-- C7 witness: a `"none"` response performs only the control GET while
the counter still increments. -/
theorem C7_action_dispatch_witness :
    (poll_iteration true pollEnvNone 41 ⟨0, 0, 0, 0⟩).1 = 42 ∧
    poll_iteration_body true pollEnvNone ⟨0, 0, 0, 0⟩ =
      (add_data_usage true ⟨0, 0, 0, 0⟩ "system" ((7 : Nat) : Int), [.controlGet]) := by
  have h := C7_action_dispatch true pollEnvNone 41 ⟨0, 0, 0, 0⟩
  exact ⟨h.1, h.2.2.2 (by decide) (by decide)⟩

/-- C8: with a `"photo"` control response, a successful capture and a
successful upload, one poll iteration runs exactly one `fswebcam`
capture, exactly one POST to the photo endpoint, and increments the
photo bucket by exactly (image file bytes + response body bytes). -/
theorem C8_photo_scenario_accounting (w : PollEnv) (poll_count : Nat)
    (buf : DataUsageBuffer) (hact : w.resp.action = "photo")
    (hrc : w.captureEnv.returncode = 0) (hex : w.captureEnv.fileExists = true)
    (hup : w.uploadOk = true) :
    (poll_iteration true w poll_count buf).1 = poll_count + 1 ∧
    (poll_iteration true w poll_count buf).2.2.countP
      (fun e => decide (e = Ev.runFswebcam)) = 1 ∧
    (poll_iteration true w poll_count buf).2.2.countP
      (fun e => decide (e = Ev.photoPost)) = 1 ∧
    (poll_iteration true w poll_count buf).2.1.get Category.photo =
      buf.get Category.photo + (w.captureEnv.fileSize : Int) + (w.respBytes : Int) := by
  have hd : dispatch_of w.resp = .photo := by simp [dispatch_of, hact]
  have hcap : capture_photo_with_fswebcam w.captureEnv =
      (Except.ok (), [.lockAcquire, .runFswebcam, .lockRelease]) := by
    unfold capture_photo_with_fswebcam
    rw [if_neg (by simp [hrc]), if_neg (by simp [hex])]
  have hbody : poll_iteration_body true w buf =
      (add_data_usage true (add_data_usage true buf "system" (w.ctrlBytes : Int))
         "photo" ((w.captureEnv.fileSize : Int) + (w.respBytes : Int)),
       [.controlGet, .lockAcquire, .runFswebcam, .lockRelease, .photoPost]) := by
    simp [poll_iteration_body, hd, handle_photo_action, hcap, upload_photo, hup]
  refine ⟨rfl, ?_, ?_, ?_⟩
  · simp [poll_iteration, hbody]
  · simp [poll_iteration, hbody]
  · have e1 := add_data_usage_get true buf "system" (w.ctrlBytes : Int) Category.photo
    rw [if_neg (fun hh => absurd hh.2.2 (by decide))] at e1
    have e2 := add_data_usage_get true
      (add_data_usage true buf "system" (w.ctrlBytes : Int)) "photo"
      ((w.captureEnv.fileSize : Int) + (w.respBytes : Int)) Category.photo
    simp only [poll_iteration, hbody]
    by_cases hn : (0 : Int) < (w.captureEnv.fileSize : Int) + (w.respBytes : Int)
    · rw [if_pos ⟨rfl, hn, by decide⟩] at e2
      rw [e2, e1]
      ring
    · rw [if_neg (fun hh => hn hh.2.1)] at e2
      rw [e2, e1]
      omega

/-- Concrete poll environment with a `"photo"` control response and a
successful capture and upload, used by the C8 witness. -/
def pollEnvPhoto : PollEnv :=
  ⟨⟨"photo", 0⟩, 10, ⟨0, true, 100⟩, true, 20, 2, fun _ => ⟨⟨0, true, 1⟩, true, 0⟩⟩

/-- C8 witness: one capture, one photo POST, photo bucket grows by
`100 + 20` bytes. -/
theorem C8_photo_scenario_accounting_witness :
    (poll_iteration true pollEnvPhoto 7 ⟨0, 0, 0, 0⟩).1 = 8 ∧
    (poll_iteration true pollEnvPhoto 7 ⟨0, 0, 0, 0⟩).2.2.countP
      (fun e => decide (e = Ev.runFswebcam)) = 1 ∧
    (poll_iteration true pollEnvPhoto 7 ⟨0, 0, 0, 0⟩).2.2.countP
      (fun e => decide (e = Ev.photoPost)) = 1 ∧
    (poll_iteration true pollEnvPhoto 7 ⟨0, 0, 0, 0⟩).2.1.get Category.photo =
      0 + (100 : Int) + 20 := by
  have h := C8_photo_scenario_accounting pollEnvPhoto 7 ⟨0, 0, 0, 0⟩
    (by decide) (by decide) (by decide) (by decide)
  exact ⟨h.1, h.2.1, h.2.2.1, h.2.2.2⟩

/-- Shape of the poll-loop trace: after `n` iterations the counter is
`n`, and the `i`-th iteration (for `i = 0..n-1`) evaluates both gates at
counter value `i + 1` — never at `0`. -/
theorem poll_loop_trace_spec (E : Int) (en : Bool) (F : Int) (n : Nat) :
    (poll_loop_trace E en F n).1 = n ∧
    (poll_loop_trace E en F n).2 =
      (List.range n).map (fun i =>
        (i + 1, energy_sample_gate E ((i + 1 : Nat) : Int),
         flush_gate en F ((i + 1 : Nat) : Int))) := by
  induction n with
  | zero => exact ⟨rfl, rfl⟩
  | succ m ih =>
      obtain ⟨ih1, ih2⟩ := ih
      constructor
      · simp [poll_loop_trace, poll_loop_step, ih1]
      · simp [poll_loop_trace, poll_loop_step, ih1, ih2, List.range_succ]

/-- A positive counter value `c` satisfies `c % P = 0` exactly when it
is a positive multiple of the (positive) period `P`. -/
theorem pos_multiple_iff_emod (P : Int) (hP : 0 < P) (c : Nat) (hc : 1 ≤ c) :
    ((c : Int) % P = 0) ↔ ∃ j : Int, 0 < j ∧ (c : Int) = j * P := by
  constructor
  · intro h
    obtain ⟨j, hj⟩ := Int.dvd_of_emod_eq_zero h
    refine ⟨j, ?_, by rw [hj, mul_comm]⟩
    by_contra hneg
    push_neg at hneg
    have hcpos : (0 : Int) < (c : Int) := by exact_mod_cast hc
    have hle : P * j ≤ P * 0 := mul_le_mul_of_nonneg_left hneg hP.le
    rw [mul_zero] at hle
    rw [hj] at hcpos
    linarith
  · rintro ⟨j, hj0, hj⟩
    rw [hj]
    exact Int.emod_eq_zero_of_dvd ⟨j, mul_comm j P⟩

/-- The energy-sample periodicity gate fires exactly at positive
multiples of its (positive) period. -/
theorem energy_sample_gate_iff (E : Int) (hE : 0 < E) (c : Nat) (hc : 1 ≤ c) :
    energy_sample_gate E ((c : Nat) : Int) = true ↔
      ∃ j : Int, 0 < j ∧ (c : Int) = j * E := by
  unfold energy_sample_gate
  rw [if_neg (by omega), ← pos_multiple_iff_emod E hE c hc]
  by_cases h : (c : Int) % E = 0
  · simp [h]
  · simp [h]

/-- With telemetry enabled, the flush periodicity gate fires exactly at
positive multiples of its (positive) period. -/
theorem flush_gate_iff (F : Int) (hF : 0 < F) (c : Nat) (hc : 1 ≤ c) :
    flush_gate true F ((c : Nat) : Int) = true ↔
      ∃ j : Int, 0 < j ∧ (c : Int) = j * F := by
  unfold flush_gate
  rw [if_neg (by simp), if_neg (by omega), ← pos_multiple_iff_emod F hF c hc]
  by_cases h : (c : Int) % F = 0
  · simp [h]
  · simp [h]

/-- C5: the poll counter is incremented exactly once per iteration, is
strictly increasing (never reset), and each periodic gate fires exactly
when the counter it is evaluated on is a positive multiple of its
period; the gates are only ever evaluated on counter values `≥ 1`, never
on `0`, so nothing fires before the first full period. -/
theorem C5_poll_counter_and_gates (E F : Int) (n : Nat) (hE : 0 < E) (hF : 0 < F) :
    poll_counter_after E true F n = n ∧
    (∀ m, poll_counter_after E true F (m + 1) = poll_counter_after E true F m + 1) ∧
    (∀ m k, m < k → poll_counter_after E true F m < poll_counter_after E true F k) ∧
    (∀ e ∈ (poll_loop_trace E true F n).2,
      1 ≤ e.1 ∧
      (e.2.1 = true ↔ ∃ j : Int, 0 < j ∧ (e.1 : Int) = j * E) ∧
      (e.2.2 = true ↔ ∃ j : Int, 0 < j ∧ (e.1 : Int) = j * F)) := by
  have hspec := fun m => poll_loop_trace_spec E true F m
  refine ⟨(hspec n).1, ?_, ?_, ?_⟩
  · intro m
    show (poll_loop_trace E true F (m + 1)).1 = (poll_loop_trace E true F m).1 + 1
    rw [(hspec (m + 1)).1, (hspec m).1]
  · intro m k h
    show (poll_loop_trace E true F m).1 < (poll_loop_trace E true F k).1
    rw [(hspec m).1, (hspec k).1]
    exact h
  · intro e he
    rw [(hspec n).2] at he
    simp only [List.mem_map, List.mem_range] at he
    obtain ⟨i, _, rfl⟩ := he
    exact ⟨by omega, energy_sample_gate_iff E hE (i + 1) (by omega),
      flush_gate_iff F hF (i + 1) (by omega)⟩

/-- C5 witness: periods `E = 5`, `F = 4`; after `12` iterations the
counter is `12`. -/
theorem C5_poll_counter_and_gates_witness :
    ((0 : Int) < 5) ∧ ((0 : Int) < 4) ∧ poll_counter_after 5 true 4 12 = 12 :=
  ⟨by decide, by decide, (C5_poll_counter_and_gates 5 4 12 (by decide) (by decide)).1⟩

/-- The capture helper's event trace is the same on all paths: the lock
is acquired, `fswebcam` runs, and the lock is released (the `with`
statement releases it also when the helper raises). -/
theorem capture_events (env : CaptureEnv) :
    (capture_photo_with_fswebcam env).2 =
      [Ev.lockAcquire, Ev.runFswebcam, Ev.lockRelease] := by
  unfold capture_photo_with_fswebcam
  split_ifs <;> rfl

/-- Arithmetic step for the cycle bound: if the remaining iterations
(each worth one interval `I`) fit below `(D - (t + I)) + I`, then one
more iteration still fits below `(D - t) + I`. -/
theorem cycles_step_bound {n I D t : Nat} (ht : t < D)
    (hrec : n * I < (D - (t + I)) + I) : (n + 1) * I < (D - t) + I := by
  rcases Nat.eq_zero_or_pos n with h0 | hpos
  · subst h0
    have h1 : (0 + 1) * I = I := by ring
    rw [h1]
    omega
  · have hle : I ≤ n * I := Nat.le_mul_of_pos_left I hpos
    rw [Nat.succ_mul]
    generalize n * I = A at hrec hle ⊢
    omega

/-- Iteration-count bound for the stream loop: every iteration is
followed by a one-interval sleep before the deadline is re-checked, so
`cycles * I` stays below `(D - t) + I`, for any fuel. -/
theorem stream_loop_cycles_mul_lt (I D : Nat) (steps : Nat → StreamStep)
    (en : Bool) (hI : 0 < I) :
    ∀ (fuel t k : Nat) (buf : DataUsageBuffer),
      (stream_loop I D steps en fuel t k buf).cycles * I < (D - t) + I := by
  intro fuel
  induction fuel with
  | zero =>
      intro t k buf
      simp only [stream_loop]
      omega
  | succ f ih =>
      intro t k buf
      by_cases ht : t < D
      · cases hcap : (capture_photo_with_fswebcam (steps k).env).1 with
        | error e =>
            simp only [stream_loop, if_pos ht, hcap]
            exact cycles_step_bound ht (ih (t + I) (k + 1) buf)
        | ok u =>
            by_cases hfs : (steps k).env.fileSize = 0
            · simp only [stream_loop, if_pos ht, hcap, if_pos hfs]
              exact cycles_step_bound ht (ih (t + I) (k + 1) buf)
            · by_cases hup : (steps k).uploadOk = true
              · simp only [stream_loop, if_pos ht, hcap, if_neg hfs, if_pos hup]
                exact cycles_step_bound ht (ih (t + I) (k + 1) _)
              · simp only [stream_loop, if_pos ht, hcap, if_neg hfs, if_neg hup]
                rw [one_mul]
                omega
      · simp only [stream_loop, if_neg ht]
        omega

/-- Exit-time bound for the stream loop: the loop is only re-entered at
clock values below the deadline, so it can never exit later than
`D + I - 1` when entered at such a clock value. -/
theorem stream_loop_exit_le (I D : Nat) (steps : Nat → StreamStep) (en : Bool) :
    ∀ (fuel t k : Nat) (buf : DataUsageBuffer), t ≤ D + I - 1 →
      (stream_loop I D steps en fuel t k buf).exitTime ≤ D + I - 1 := by
  intro fuel
  induction fuel with
  | zero =>
      intro t k buf h
      simpa only [stream_loop] using h
  | succ f ih =>
      intro t k buf h
      by_cases ht : t < D
      · cases hcap : (capture_photo_with_fswebcam (steps k).env).1 with
        | error e =>
            simp only [stream_loop, if_pos ht, hcap]
            exact ih (t + I) (k + 1) buf (by omega)
        | ok u =>
            by_cases hfs : (steps k).env.fileSize = 0
            · simp only [stream_loop, if_pos ht, hcap, if_pos hfs]
              exact ih (t + I) (k + 1) buf (by omega)
            · by_cases hup : (steps k).uploadOk = true
              · simp only [stream_loop, if_pos ht, hcap, if_neg hfs, if_pos hup]
                exact ih (t + I) (k + 1) _ (by omega)
              · simp only [stream_loop, if_pos ht, hcap, if_neg hfs, if_neg hup]
                exact h
      · simpa only [stream_loop, if_neg ht] using h

/-- C3: a stream session of duration `D` with frame interval `I > 0`
performs at most `⌈D / I⌉ = (D + I - 1) / I` capture+upload cycles, and
its loop exits no later than `D + I` after it started (the clock
advances by one interval at each `time.sleep`). -/
theorem C3_stream_session_bounds (I D : Nat) (steps : Nat → StreamStep)
    (en : Bool) (buf : DataUsageBuffer) (hI : 0 < I) :
    (stream_for_duration I D steps en buf).cycles ≤ (D + I - 1) / I ∧
    (stream_for_duration I D steps en buf).exitTime ≤ D + I := by
  constructor
  · have h := stream_loop_cycles_mul_lt I D steps en hI (D + 1) 0 0 buf
    rw [Nat.le_div_iff_mul_le hI]
    show (stream_loop I D steps en (D + 1) 0 0 buf).cycles * I ≤ D + I - 1
    generalize (stream_loop I D steps en (D + 1) 0 0 buf).cycles * I = A at h ⊢
    omega
  · have h := stream_loop_exit_le I D steps en (D + 1) 0 0 buf (by omega)
    show (stream_loop I D steps en (D + 1) 0 0 buf).exitTime ≤ D + I
    omega

/-- C3 witness: duration `6`, interval `2`, all captures and uploads
succeeding: at most `(6 + 2 - 1) / 2 = 3` cycles, exit by `8`. -/
theorem C3_stream_session_bounds_witness :
    (0 : Nat) < 2 ∧
    (stream_for_duration 2 6 (fun _ => ⟨⟨0, true, 100⟩, true, 10⟩) true
      ⟨0, 0, 0, 0⟩).cycles ≤ 3 ∧
    (stream_for_duration 2 6 (fun _ => ⟨⟨0, true, 100⟩, true, 10⟩) true
      ⟨0, 0, 0, 0⟩).exitTime ≤ 8 := by
  have h := C3_stream_session_bounds 2 6 (fun _ => ⟨⟨0, true, 100⟩, true, 10⟩) true
    ⟨0, 0, 0, 0⟩ (by decide)
  exact ⟨by decide, h.1, h.2⟩

/-- C6: inside a running stream session, a failed frame capture only
logs and continues the loop after one frame-interval sleep (it never
ends the session by itself); a failed frame upload breaks out of the
loop immediately (no further cycles); and the terminal
`"Streaming finalizado"` log is the last event on every exit path. -/
theorem C6_stream_failure_isolation (I D : Nat) (steps : Nat → StreamStep)
    (en : Bool) (fuel t k : Nat) (buf : DataUsageBuffer) (ht : t < D) :
    (∀ e, (capture_photo_with_fswebcam (steps k).env).1 = Except.error e →
      stream_loop I D steps en (fuel + 1) t k buf =
        ⟨(stream_loop I D steps en fuel (t + I) (k + 1) buf).exitTime,
         (stream_loop I D steps en fuel (t + I) (k + 1) buf).cycles + 1,
         (stream_loop I D steps en fuel (t + I) (k + 1) buf).buf,
         [.lockAcquire, .runFswebcam, .lockRelease, .captureFailLog] ++
           (stream_loop I D steps en fuel (t + I) (k + 1) buf).events⟩) ∧
    ((capture_photo_with_fswebcam (steps k).env).1 = Except.ok () →
      (steps k).env.fileSize ≠ 0 → (steps k).uploadOk = false →
      stream_loop I D steps en (fuel + 1) t k buf =
        ⟨t, 1, buf,
         [.lockAcquire, .runFswebcam, .lockRelease,
          .framePost (steps k).env.fileSize, .uploadErrorLog]⟩) ∧
    (stream_for_duration I D steps en buf).events.getLast? =
      some .streamFinishedLog := by
  refine ⟨?_, ?_, ?_⟩
  · intro e he
    simp [stream_loop, ht, he, capture_events]
  · intro h1 h2 h3
    simp [stream_loop, ht, h1, h2, h3, capture_events]
  · show ((stream_loop I D steps en (D + 1) 0 0 buf).events ++
      [Ev.streamFinishedLog]).getLast? = some Ev.streamFinishedLog
    rw [List.getLast?_concat]

/-- Stream-step environment whose captures always fail (non-zero exit
status), used by the C6 witness. -/
def streamStepsCaptureFail : Nat → StreamStep := fun _ => ⟨⟨1, true, 0⟩, true, 0⟩

/-- C6 witness: with a failing capture at clock `0 < 6`, the loop logs
and recurses at clock `2` instead of stopping, and the terminal log
closes the trace. -/
theorem C6_stream_failure_isolation_witness :
    (0 : Nat) < 6 ∧
    stream_loop 2 6 streamStepsCaptureFail true 8 0 0 ⟨0, 0, 0, 0⟩ =
      ⟨(stream_loop 2 6 streamStepsCaptureFail true 7 2 1 ⟨0, 0, 0, 0⟩).exitTime,
       (stream_loop 2 6 streamStepsCaptureFail true 7 2 1 ⟨0, 0, 0, 0⟩).cycles + 1,
       (stream_loop 2 6 streamStepsCaptureFail true 7 2 1 ⟨0, 0, 0, 0⟩).buf,
       [.lockAcquire, .runFswebcam, .lockRelease, .captureFailLog] ++
         (stream_loop 2 6 streamStepsCaptureFail true 7 2 1 ⟨0, 0, 0, 0⟩).events⟩ ∧
    (stream_for_duration 2 6 streamStepsCaptureFail true ⟨0, 0, 0, 0⟩).events.getLast? =
      some .streamFinishedLog := by
  have h := C6_stream_failure_isolation 2 6 streamStepsCaptureFail true 7 0 0
    ⟨0, 0, 0, 0⟩ (by decide)
  exact ⟨by decide, h.1 .fswebcamFailed rfl, h.2.2⟩

/-- C4 witness: cooldown `5`, first activation at `t = 10` (accepted),
second at `t = 12` (suppressed): exactly one flow is launched. -/
theorem C4_pir_cooldown_suppression_witness :
    ((10 : ℚ) - 0 ≥ 5) ∧
    pir_run 5 (0, 0) [(10, true), (12, true)] = (10, 1) := by
  have h := C4_pir_cooldown_suppression 5 0 10 12 (by norm_num)
  exact ⟨by norm_num, h.1 (by norm_num)⟩

end CameraAgent
